import Mathlib

/-!
Verification development for the go-forward-http forward proxy
(`src/main.go`). The definitions below are a shallow embedding of the
program: header maps become association lists (the order of distinct keys
models one Go map iteration order), channels in the header-filter pipeline
become the lists of values they carry, goroutine progress becomes an
explicit prefix of the pending operations, and the `net/http`
`ResponseWriter` becomes a state record in which only the first
`WriteHeader` call commits a status (later calls are superfluous and
ignored, as in `net/http`).
-/

set_option autoImplicit false

namespace GoForwardHTTP

/-- Byte content of a string, used to model response bodies on the wire. -/
def strBytes (s : String) : List Nat :=
  s.toList.map Char.toNat

/-! ## Canonical header keys (`net/textproto.CanonicalMIMEHeaderKey`) -/

/-- Valid header-field bytes per Go's `validHeaderFieldByte`
(HTTP token characters). -/
def isTokenChar (c : Char) : Bool :=
  (Char.ofNat 97 ≤ c && c ≤ Char.ofNat 122) ||
  (Char.ofNat 65 ≤ c && c ≤ Char.ofNat 90) ||
  (Char.ofNat 48 ≤ c && c ≤ Char.ofNat 57) ||
  [Char.ofNat 33, Char.ofNat 35, Char.ofNat 36, Char.ofNat 37, Char.ofNat 38,
   Char.ofNat 39, Char.ofNat 42, Char.ofNat 43, Char.ofNat 45, Char.ofNat 46,
   Char.ofNat 94, Char.ofNat 95, Char.ofNat 96, Char.ofNat 124,
   Char.ofNat 126].contains c

/-- Uppercase an ASCII lowercase letter, as in the canonicalization loop. -/
def asciiUpper (c : Char) : Char :=
  if Char.ofNat 97 ≤ c && c ≤ Char.ofNat 122 then Char.ofNat (c.toNat - 32) else c

/-- Lowercase an ASCII uppercase letter, as in the canonicalization loop. -/
def asciiLower (c : Char) : Char :=
  if Char.ofNat 65 ≤ c && c ≤ Char.ofNat 90 then Char.ofNat (c.toNat + 32) else c

/-- The canonicalization loop: uppercase the first letter and each letter
following a hyphen, lowercase the rest. -/
def canonicalChars : Bool → List Char → List Char
  | _, [] => []
  | upper, c :: rest =>
    let c2 := if upper then asciiUpper c else asciiLower c
    c2 :: canonicalChars (c2 = Char.ofNat 45) rest

/-- Model of `http.CanonicalHeaderKey`: canonical form of a MIME header key;
a key containing an invalid header-field byte is returned unchanged. -/
def canonicalHeaderKey (s : String) : String :=
  if s.toList.all isTokenChar then String.mk (canonicalChars true s.toList) else s

/-! ## Header mappings (`http.Header`) -/

/-- A header mapping: canonical key to ordered value sequence. The
association list carries the (single) value sequence per key; its order
models one iteration order of the Go map. -/
def HeaderMap := List (String × List String)

instance : DecidableEq HeaderMap := by
  unfold HeaderMap
  infer_instance

instance : Membership (String × List String) HeaderMap := by
  unfold HeaderMap
  infer_instance

/-- Append a value to a key's sequence (creating the key at the end when
absent), without canonicalizing: the `textproto.MIMEHeader.Add` append. -/
def assocAdd : HeaderMap → String → String → HeaderMap
  | [], k, v => [(k, [v])]
  | (k2, vs) :: rest, k, v =>
    if k2 = k then (k2, vs ++ [v]) :: rest
    else (k2, vs) :: assocAdd rest k v

/-- Model of `http.Header.Add`: canonicalize the key, then append the value
to that key's sequence. -/
def headerAdd (h : HeaderMap) (k v : String) : HeaderMap :=
  assocAdd h (canonicalHeaderKey k) v

/-- Value sequence stored under a key, `[]` when the key is absent. -/
def headerGet (h : HeaderMap) (k : String) : List String :=
  match h.find? (fun p => p.1 = k) with
  | some p => p.2
  | none => []

/-- Whether a key is present in the mapping. -/
def headerHasKey (h : HeaderMap) (k : String) : Bool :=
  h.any (fun p => p.1 = k)

/-! ## The `set` type of `main.go` -/

/-- Model of the `set` struct: insertion-ordered list standing for the
`map[string]struct\x7b\x7d` entries. -/
structure StrSet where
  entries : List String
deriving DecidableEq

/-- Model of `set.has`. -/
def StrSet.has (s : StrSet) (v : String) : Bool :=
  s.entries.contains v

/-- Model of `set.insert` (the returned Bool of the Go method is unused by
the program and dropped here). -/
def StrSet.insert (s : StrSet) (v : String) : StrSet :=
  if s.has v then s else ⟨s.entries ++ [v]⟩

/-- Model of `newSet()`. -/
def newSet : StrSet := ⟨[]⟩

/-! ## The header-filter pipeline (`withoutHeaders`, `filterResponse`) -/

/-- Model of the `headerEntry` struct. -/
structure headerEntry where
  key : String
  values : List String
deriving DecidableEq

/-- Model of `withoutHeaders`: the drained content of the output channel,
given the full content of the input channel — the entries whose key the
`unwanted` set does not contain, in order. -/
def withoutHeaders (input : List headerEntry) (unwanted : StrSet) : List headerEntry :=
  input.filter (fun e => !(unwanted.has e.key))

/-- The entries the producer goroutine of `filterResponse` feeds into
`headerCh`: each header pair with its key canonicalized. -/
def respEntries (h : HeaderMap) : List headerEntry :=
  h.map (fun p => { key := canonicalHeaderKey p.1, values := p.2 })

/-- The consumer goroutine of `filterResponse`: `Header.Add` each value of
each filtered entry into the (shared) header map `init`. -/
def filterAdds (init : HeaderMap) (entries : List headerEntry) : HeaderMap :=
  entries.foldl (fun acc e => e.values.foldl (fun a v => headerAdd a e.key v) acc) init

/-- The denied-key set built by `filterResponse`: `newSet()` followed by
`insert("Cookie")`. -/
def unwantedHeaders : StrSet := newSet.insert "Cookie"

/-- Completed effect of the `filterResponse` pipeline on a header map, for
an arbitrary denied-key set: the non-denied entries of `h` are `Add`ed back
into `h` itself (the shallow struct copy shares the map), and nothing is
ever deleted. Each key's own adds happen strictly after the producer reads
that key, so every entry is fed with its original value sequence. -/
def filterHeader (h : HeaderMap) (unwanted : StrSet) : HeaderMap :=
  filterAdds h (withoutHeaders (respEntries h) unwanted)

/-- Model of an `http.Response`: status code, header mapping and the byte
content of the body stream. -/
structure Response where
  statusCode : Nat
  header : HeaderMap
  body : List Nat
deriving DecidableEq

/-- Model of `filterResponse` (its completed effect): the returned response
is the shallow copy of the input, with the pipeline's adds applied to the
header map. -/
def filterResponse (r : Response) : Response :=
  { r with header := filterHeader r.header unwantedHeaders }

/-! ### Observable intermediate states of the pipeline

`filterResponse` returns without joining the goroutine that performs the
`Header.Add` calls, so at the moment control returns to the caller an
arbitrary prefix of those add operations has been applied. -/

/-- The individual `(key, value)` add operations the consumer goroutine
performs, in order. -/
def addOps (h : HeaderMap) (unwanted : StrSet) : List (String × String) :=
  ((withoutHeaders (respEntries h) unwanted).map
    (fun e => e.values.map (fun v => (e.key, v)))).flatten

/-- Apply a list of add operations to a header map. -/
def applyOps (h : HeaderMap) (ops : List (String × String)) : HeaderMap :=
  ops.foldl (fun acc p => headerAdd acc p.1 p.2) h

/-- The header map a caller of `filterResponse` can observe after the
consumer goroutine has performed `n` of its add operations. -/
def observableAt (h : HeaderMap) (n : Nat) : HeaderMap :=
  applyOps h ((addOps h unwantedHeaders).take n)

/-! ## `config` and status constants -/

/-- Model of the `config` struct. -/
structure Config where
  logRequestBody : Bool
  logResponseBody : Bool
  address : String
deriving DecidableEq

/-- Model of `defaultConfig()`. -/
def defaultConfig : Config :=
  { logRequestBody := false, logResponseBody := false, address := ":8888" }

/-- Model of the dial timeout constant `TIMEOUT_MS` (milliseconds). -/
def TIMEOUT_MS : Nat := 5000

/-- `http.StatusOK`. -/
def statusOK : Nat := 200

/-- `http.StatusInternalServerError`. -/
def statusInternalServerError : Nat := 500

/-- `http.StatusServiceUnavailable`. -/
def statusServiceUnavailable : Nat := 503

/-! ## `net/http` ResponseWriter

Only the first `WriteHeader` call commits a status; later calls are
superfluous and change nothing on the wire. A `Write` before any
`WriteHeader` implicitly commits 200. -/

/-- Wire-observable state of a `ResponseWriter`: the committed status line
(what the client reads), the body bytes written so far, and the handler's
header map `w.Header()`. -/
structure ResponseWriter where
  committedStatus : Option Nat
  bodyBytes : List Nat
  header : HeaderMap
deriving DecidableEq

/-- A fresh writer, before the handler has touched it. -/
def newResponseWriter : ResponseWriter :=
  { committedStatus := none, bodyBytes := [], header := [] }

/-- Model of `w.WriteHeader(code)`: commits `code` only if no status has
been committed yet. -/
def ResponseWriter.writeHeader (w : ResponseWriter) (code : Nat) : ResponseWriter :=
  match w.committedStatus with
  | none => { w with committedStatus := some code }
  | some _ => w

/-- Model of `w.Write(bs)`: an implicit 200 if nothing is committed yet,
then the bytes are appended to the body. -/
def ResponseWriter.write (w : ResponseWriter) (bs : List Nat) : ResponseWriter :=
  let w2 := w.writeHeader statusOK
  { w2 with bodyBytes := w2.bodyBytes ++ bs }

/-- Model of `http.Error(w, msg, code)`: `WriteHeader(code)` then
`Fprintln(w, msg)` (header tweaks to Content-Type are irrelevant here). -/
def httpError (w : ResponseWriter) (msg : String) (code : Nat) : ResponseWriter :=
  (w.writeHeader code).write (strBytes (msg ++ "\n"))

/-! ## `handleTunnel` -/

/-- Environment of one `handleTunnel` call: whether `DumpRequest` succeeds,
whether `net.DialTimeout` to `r.Host` succeeds within the timeout, whether
the writer implements `http.Hijacker`, and whether `Hijack()` succeeds. -/
structure TunnelEnv where
  dumpOk : Bool
  dialOk : Bool
  hijackSupported : Bool
  hijackOk : Bool
deriving DecidableEq

/-- Outcome of one `handleTunnel` call: the writer state, the `withBody`
flag of each `DumpRequest` call performed, whether the two `go transfer`
statements were reached, and whether the hijacked client connection they
received was non-nil. -/
structure TunnelOutcome where
  writer : ResponseWriter
  dumpBodyFlags : List Bool
  transfersStarted : Bool
  clientConnValid : Bool
deriving DecidableEq

/-- Model of `handleTunnel`. Faithful to the source order: `DumpRequest(r,
true)` first; dial failure answers 503 and returns; then `WriteHeader(200)`
is called BEFORE the hijack-capability check; a missing hijack capability
answers 500 and returns; a failed `Hijack()` answers 503 but does NOT
return (no `return` statement in that branch), so the two transfers are
still spawned, on a nil client connection. -/
def handleTunnel (env : TunnelEnv) (w0 : ResponseWriter) : TunnelOutcome :=
  if !env.dumpOk then
    { writer := httpError w0 "dump error" statusInternalServerError
      dumpBodyFlags := [true], transfersStarted := false, clientConnValid := false }
  else if !env.dialOk then
    { writer := httpError w0 "dial error" statusServiceUnavailable
      dumpBodyFlags := [true], transfersStarted := false, clientConnValid := false }
  else
    let w1 := w0.writeHeader statusOK
    if !env.hijackSupported then
      { writer := httpError w1 "Tunneling (hijacking) not supported" statusInternalServerError
        dumpBodyFlags := [true], transfersStarted := false, clientConnValid := false }
    else if !env.hijackOk then
      { writer := httpError w1 "hijack error" statusServiceUnavailable
        dumpBodyFlags := [true], transfersStarted := true, clientConnValid := false }
    else
      { writer := w1
        dumpBodyFlags := [true], transfersStarted := true, clientConnValid := true }

/-! ## `getHTTPHandler` (the relay path) -/

/-- Model of `copyHeader(from, to)`: `to.Add(k, v)` for every value of
every key of `from`. -/
def copyHeader (src dst : HeaderMap) : HeaderMap :=
  src.foldl (fun acc p => p.2.foldl (fun a v => headerAdd a p.1 v) acc) dst

/-- Environment of one relay-handler call: the config it was built with,
whether `DumpRequest` succeeds, the destination response of
`RoundTrip` (`none` = transport failure), and whether the two
`DumpResponse` calls succeed. -/
structure RelayEnv where
  conf : Config
  dumpReqOk : Bool
  roundTripRes : Option Response
  dumpRes1Ok : Bool
  dumpRes2Ok : Bool

/-- Outcome of one relay-handler call: the writer state and the `withBody`
flags passed to `DumpRequest` and `DumpResponse`. -/
structure RelayOutcome where
  writer : ResponseWriter
  reqDumpBodyFlags : List Bool
  resDumpBodyFlags : List Bool

/-- Model of the handler returned by `getHTTPHandler(conf)`:
`DumpRequest(r, conf.logRequestBody)`; `RoundTrip`, 503 on failure;
`DumpResponse(res, conf.logResponseBody)`; `filterResponse`;
`DumpResponse(&finalRes, conf.logResponseBody)`; then `copyHeader` into
`w.Header()`, `WriteHeader(finalRes.StatusCode)` and `io.Copy` of the
body. -/
def handleHTTP (env : RelayEnv) (w0 : ResponseWriter) : RelayOutcome :=
  if !env.dumpReqOk then
    { writer := httpError w0 "dump req error" statusInternalServerError
      reqDumpBodyFlags := [env.conf.logRequestBody], resDumpBodyFlags := [] }
  else
    match env.roundTripRes with
    | none =>
      { writer := httpError w0 "round trip error" statusServiceUnavailable
        reqDumpBodyFlags := [env.conf.logRequestBody], resDumpBodyFlags := [] }
    | some res =>
      if !env.dumpRes1Ok then
        { writer := httpError w0 "dump res error" statusInternalServerError
          reqDumpBodyFlags := [env.conf.logRequestBody]
          resDumpBodyFlags := [env.conf.logResponseBody] }
      else
        let finalRes := filterResponse res
        if !env.dumpRes2Ok then
          { writer := httpError w0 "dump final res error" statusInternalServerError
            reqDumpBodyFlags := [env.conf.logRequestBody]
            resDumpBodyFlags := [env.conf.logResponseBody, env.conf.logResponseBody] }
        else
          let w1 := { w0 with header := copyHeader finalRes.header w0.header }
          let w2 := w1.writeHeader finalRes.statusCode
          let w3 := w2.write finalRes.body
          { writer := w3
            reqDumpBodyFlags := [env.conf.logRequestBody]
            resDumpBodyFlags := [env.conf.logResponseBody, env.conf.logResponseBody] }

/-! ## `transfer` and the tunnel byte pumps -/

/-- One direction's source stream: the bytes `Read` delivers before it
returns end-of-stream or an error. -/
structure ByteStream where
  bytesRead : List Nat
deriving DecidableEq

/-- Events one `transfer` goroutine produces, in order. -/
inductive TransferEvent where
  | copied : Nat → TransferEvent
  | closedFrom : TransferEvent
  | closedTo : TransferEvent
deriving DecidableEq

/-- Model of `io.Copy(to, from)`: copy bytes one by one until the source
ends (end-of-stream or error). -/
def ioCopy : List Nat → List TransferEvent
  | [] => []
  | b :: rest => TransferEvent.copied b :: ioCopy rest

/-- Model of `transfer(from, to)`: `io.Copy`, then the deferred closes run
in LIFO order — `from.Close()` (registered last) before `to.Close()`. -/
def transfer (src : ByteStream) : List TransferEvent :=
  ioCopy src.bytesRead ++ [TransferEvent.closedFrom, TransferEvent.closedTo]

/-- The two byte pumps spawned for an established tunnel:
`go transfer(clientConn, destConn)` and `go transfer(destConn,
clientConn)`. Each is a function of its own source stream only. -/
def tunnelTransfers (clientSrc destSrc : ByteStream) :
    List TransferEvent × List TransferEvent :=
  (transfer clientSrc, transfer destSrc)

/-- Whether an event is a byte copy. -/
def TransferEvent.isCopied : TransferEvent → Bool
  | .copied _ => true
  | _ => false

/-! ## Heap model for `filterResponse` aliasing

`filterResponse` receives the response struct by value, but the struct
copy `filteredRes := response` shares the `Header` map, and every
`filteredRes.Header.Add` mutates that shared map. The store maps
references to header maps. -/

/-- A heap of header maps, addressed by reference. -/
def Store := Nat → HeaderMap

/-- Read a reference. -/
def storeGet (s : Store) (r : Nat) : HeaderMap := s r

/-- Overwrite a reference. -/
def storeSet (s : Store) (r : Nat) (h : HeaderMap) : Store :=
  fun i => if i = r then h else s i

/-- A response whose header map lives behind a reference, as the Go struct
holds a `map` reference. -/
structure ResponseRef where
  statusCode : Nat
  headerRef : Nat
  body : List Nat
deriving DecidableEq

/-- One `Header.Add` performed through a reference. -/
def addViaRef (s : Store) (r : Nat) (k v : String) : Store :=
  storeSet s r (headerAdd (storeGet s r) k v)

/-- Model of `filterResponse` over the heap: the struct copy keeps the
input's header reference; the producer snapshots the entries; the consumer
`Add`s each filtered value through that shared reference. Returns the final
heap and the returned response. -/
def filterResponseRef (s : Store) (resp : ResponseRef) : Store × ResponseRef :=
  let filteredRes := resp
  let snapshot := storeGet s resp.headerRef
  let filtered := withoutHeaders (respEntries snapshot) unwantedHeaders
  let sEnd := filtered.foldl
    (fun acc e => e.values.foldl
      (fun a v => addViaRef a filteredRes.headerRef e.key v) acc) s
  (sEnd, filteredRes)

/-! ## Supporting lemmas -/

/-- Applying a concatenation of add operations is sequential application. -/
theorem applyOps_append (h : HeaderMap) (ops1 ops2 : List (String × String)) :
    applyOps h (ops1 ++ ops2) = applyOps (applyOps h ops1) ops2 := by
  simp [applyOps, List.foldl_append]

/-- The flattened per-value add operations of a list of entries perform
exactly the `filterAdds` of those entries. -/
theorem applyOps_flatten (es : List headerEntry) :
    ∀ h : HeaderMap,
      applyOps h ((es.map (fun e => e.values.map (fun v => (e.key, v)))).flatten)
        = filterAdds h es := by
  induction es with
  | nil => intro h; rfl
  | cons e es ih =>
    intro h
    simp only [List.map_cons, List.flatten_cons, applyOps_append, filterAdds,
      List.foldl_cons]
    rw [show applyOps h (e.values.map (fun v => (e.key, v)))
          = e.values.foldl (fun a v => headerAdd a e.key v) h by
        simp [applyOps, List.foldl_map]]
    exact ih _

/-- Once every pending add operation has been applied, the observable map
is the completed filter result. -/
theorem observableAt_complete (h : HeaderMap) :
    observableAt h (addOps h unwantedHeaders).length
      = filterHeader h unwantedHeaders := by
  simp only [observableAt, List.take_length, addOps, filterHeader]
  exact applyOps_flatten _ h

/-- `io.Copy` emits exactly one copy event per source byte, in order. -/
theorem ioCopy_eq_map (bs : List Nat) :
    ioCopy bs = bs.map TransferEvent.copied := by
  induction bs with
  | nil => rfl
  | cons b rest ih => simp [ioCopy, ih]

/-- Copy events are never a close of the source. -/
theorem count_closedFrom_map_copied (bs : List Nat) :
    (bs.map TransferEvent.copied).count TransferEvent.closedFrom = 0 := by
  induction bs with
  | nil => rfl
  | cons b rest ih => simp [List.count_cons, ih]

/-- Copy events are never a close of the destination. -/
theorem count_closedTo_map_copied (bs : List Nat) :
    (bs.map TransferEvent.copied).count TransferEvent.closedTo = 0 := by
  induction bs with
  | nil => rfl
  | cons b rest ih => simp [List.count_cons, ih]

/-- Reading a reference just written through `addViaRef`. -/
theorem storeGet_addViaRef_self (s : Store) (r : Nat) (k v : String) :
    storeGet (addViaRef s r k v) r = headerAdd (storeGet s r) k v := by
  simp [addViaRef, storeGet, storeSet]

/-- Folding the per-value adds of one entry through a reference equals the
pure fold on the referenced map. -/
theorem storeGet_foldValues (vs : List String) (k : String) (r : Nat) :
    ∀ s : Store,
      storeGet (vs.foldl (fun a v => addViaRef a r k v) s) r
        = vs.foldl (fun a v => headerAdd a k v) (storeGet s r) := by
  induction vs with
  | nil => intro s; rfl
  | cons v vs ih =>
    intro s
    simp only [List.foldl_cons]
    rw [ih, storeGet_addViaRef_self]

/-- Folding every entry's adds through a reference equals `filterAdds` on
the referenced map. -/
theorem storeGet_foldEntries (r : Nat) (es : List headerEntry) :
    ∀ s : Store,
      storeGet
        (es.foldl (fun acc e => e.values.foldl
          (fun a v => addViaRef a r e.key v) acc) s) r
        = filterAdds (storeGet s r) es := by
  induction es with
  | nil => intro s; rfl
  | cons e es ih =>
    intro s
    simp only [List.foldl_cons, filterAdds]
    rw [ih, storeGet_foldValues]
    rfl

/-! ## Claims -/

/-- C1: the claim says `filter(H, D)` contains exactly the entries of H
whose key is not in D, values unchanged, and every key of D absent. On the
code: the pipeline only `Add`s the retained entries back into the input's
own map and never deletes, so a denied key ("Cookie", which the denied set
does hold) survives filtering unchanged, and a retained key's value
sequence is duplicated rather than preserved. -/
theorem C1_denied_key_survives_and_values_duplicate :
    unwantedHeaders.has "Cookie" = true ∧
    filterHeader [("Cookie", ["a=b"])] unwantedHeaders = [("Cookie", ["a=b"])] ∧
    filterHeader [("X-Test", ["a"])] unwantedHeaders = [("X-Test", ["a", "a"])] := by
  decide

/-- C2: the claim says filtering is idempotent. On the code: one pass turns
the value sequence of a retained key `["a"]` into `["a", "a"]`, a second
pass into `["a", "a", "a", "a"]`, so the two sides differ. -/
theorem C2_filter_not_idempotent :
    filterHeader (filterHeader [("X-Test", ["a"])] unwantedHeaders) unwantedHeaders
      ≠ filterHeader [("X-Test", ["a"])] unwantedHeaders := by
  decide

/-- C3: the claim says the filter fully completes before control returns
and no caller observes a partially filtered mapping. On the code:
`filterResponse` returns without joining the goroutine that performs the
adds, so the caller can observe the map after `0` of the pending add
operations (here: the untouched input), which differs from the completed
result. -/
theorem C3_caller_can_observe_incomplete_filter :
    observableAt [("X-Test", ["a"])] 0 = [("X-Test", ["a"])] ∧
    filterHeader [("X-Test", ["a"])] unwantedHeaders = [("X-Test", ["a", "a"])] ∧
    observableAt [("X-Test", ["a"])] 0
      ≠ filterHeader [("X-Test", ["a"])] unwantedHeaders := by
  decide

/-- C4: the claim says a client whose CONNECT dial succeeds but whose
environment lacks hijack capability receives a 500-equivalent status. On
the code: `WriteHeader(200)` runs before the hijack-capability check, so
the `http.Error(..., 500)` in that branch is superfluous and the client
observes the already-committed 200; no tunnel is created (that part
holds). -/
theorem C4_hijack_unsupported_client_sees_200 :
    (handleTunnel ⟨true, true, false, true⟩ newResponseWriter).writer.committedStatus
        = some statusOK ∧
    (handleTunnel ⟨true, true, false, true⟩ newResponseWriter).writer.committedStatus
        ≠ some statusInternalServerError ∧
    (handleTunnel ⟨true, true, false, true⟩ newResponseWriter).transfersStarted = false := by
  decide

/-- C5: the claim says a failed hijack acquisition responds 503 and aborts
with no byte-copy started. On the code: the `http.Error(..., 503)` branch
has no `return`, so control falls through and both `go transfer` statements
still run, on a nil client connection; and the 503 itself is superfluous
because 200 was already committed. -/
theorem C5_hijack_failure_still_starts_transfers :
    (handleTunnel ⟨true, true, true, false⟩ newResponseWriter).transfersStarted = true ∧
    (handleTunnel ⟨true, true, true, false⟩ newResponseWriter).clientConnValid = false ∧
    (handleTunnel ⟨true, true, true, false⟩ newResponseWriter).writer.committedStatus
        = some statusOK ∧
    (handleTunnel ⟨true, true, true, false⟩ newResponseWriter).writer.committedStatus
        ≠ some statusServiceUnavailable := by
  decide

/-- C6: an unreachable destination (dial failure within the fixed 5000 ms
timeout) yields a committed 503 with no transfers started on the tunnel
path, and a round-trip failure yields a committed 503 on the relay path. -/
theorem C6_unreachable_destination_yields_503 :
    TIMEOUT_MS = 5000 ∧
    (∀ env : TunnelEnv, env.dumpOk = true → env.dialOk = false →
      (handleTunnel env newResponseWriter).writer.committedStatus
          = some statusServiceUnavailable ∧
      (handleTunnel env newResponseWriter).transfersStarted = false) ∧
    (∀ env : RelayEnv, env.dumpReqOk = true → env.roundTripRes = none →
      (handleHTTP env newResponseWriter).writer.committedStatus
          = some statusServiceUnavailable) := by
  refine ⟨rfl, ?_, ?_⟩
  · rintro ⟨d, dl, hs, ho⟩ h1 h2
    simp only at h1 h2
    subst h1; subst h2
    cases hs <;> cases ho <;> decide
  · rintro ⟨conf, dr, rt, d1, d2⟩ h1 h2
    simp only at h1 h2
    subst h1; subst h2
    simp [handleHTTP, httpError, ResponseWriter.write, ResponseWriter.writeHeader,
      newResponseWriter]

/-- C6 witness: the theorem applied at a failing dial and a failing round
trip. -/
theorem C6_unreachable_destination_yields_503_witness :
    (handleTunnel ⟨true, false, true, true⟩ newResponseWriter).writer.committedStatus
        = some statusServiceUnavailable ∧
    (handleTunnel ⟨true, false, true, true⟩ newResponseWriter).transfersStarted = false ∧
    (handleHTTP ⟨defaultConfig, true, none, true, true⟩ newResponseWriter).writer.committedStatus
        = some statusServiceUnavailable :=
  ⟨(C6_unreachable_destination_yields_503.2.1 ⟨true, false, true, true⟩ rfl rfl).1,
   (C6_unreachable_destination_yields_503.2.1 ⟨true, false, true, true⟩ rfl rfl).2,
   C6_unreachable_destination_yields_503.2.2 ⟨defaultConfig, true, none, true, true⟩ rfl rfl⟩

/-- C7: the claim says a response with no denied header key is relayed with
status, body and header mapping unchanged. On the code: status and body are
indeed unchanged, but `filterResponse` duplicates every retained key's
values, so the client receives `X-Test: a, a` where the destination sent
`X-Test: a`. -/
theorem C7_clean_response_headers_still_changed :
    (handleHTTP ⟨defaultConfig, true,
        some ⟨200, [("X-Test", ["a"])], strBytes "hello"⟩, true, true⟩
      newResponseWriter).writer.committedStatus = some 200 ∧
    (handleHTTP ⟨defaultConfig, true,
        some ⟨200, [("X-Test", ["a"])], strBytes "hello"⟩, true, true⟩
      newResponseWriter).writer.bodyBytes = strBytes "hello" ∧
    (handleHTTP ⟨defaultConfig, true,
        some ⟨200, [("X-Test", ["a"])], strBytes "hello"⟩, true, true⟩
      newResponseWriter).writer.header = [("X-Test", ["a", "a"])] ∧
    ([("X-Test", ["a", "a"])] : HeaderMap) ≠ [("X-Test", ["a"])] := by
  decide

/-- C8: each of the two byte pumps of an established tunnel copies exactly
its own source's bytes in order, then closes its source and its destination
exactly once each, its trace a function of its own source stream alone. -/
theorem C8_transfer_copies_then_closes_once :
    ∀ clientSrc destSrc : ByteStream,
      (tunnelTransfers clientSrc destSrc).1
          = clientSrc.bytesRead.map TransferEvent.copied
              ++ [TransferEvent.closedFrom, TransferEvent.closedTo] ∧
      (tunnelTransfers clientSrc destSrc).2
          = destSrc.bytesRead.map TransferEvent.copied
              ++ [TransferEvent.closedFrom, TransferEvent.closedTo] ∧
      (tunnelTransfers clientSrc destSrc).1.count TransferEvent.closedFrom = 1 ∧
      (tunnelTransfers clientSrc destSrc).1.count TransferEvent.closedTo = 1 ∧
      (tunnelTransfers clientSrc destSrc).2.count TransferEvent.closedFrom = 1 ∧
      (tunnelTransfers clientSrc destSrc).2.count TransferEvent.closedTo = 1 := by
  intro clientSrc destSrc
  have h1 : (tunnelTransfers clientSrc destSrc).1
      = clientSrc.bytesRead.map TransferEvent.copied
          ++ [TransferEvent.closedFrom, TransferEvent.closedTo] := by
    simp [tunnelTransfers, transfer, ioCopy_eq_map]
  have h2 : (tunnelTransfers clientSrc destSrc).2
      = destSrc.bytesRead.map TransferEvent.copied
          ++ [TransferEvent.closedFrom, TransferEvent.closedTo] := by
    simp [tunnelTransfers, transfer, ioCopy_eq_map]
  refine ⟨h1, h2, ?_, ?_, ?_, ?_⟩ <;>
    simp [h1, h2, List.count_append, List.count_cons,
      count_closedFrom_map_copied, count_closedTo_map_copied]

/-- C9: the claim says body capture happens only when the corresponding
Config flag is enabled, on every path. On the code: `handleTunnel` calls
`DumpRequest(r, true)` with the body flag hardcoded to `true`, for every
environment and writer, while the default config has `logRequestBody =
false`; the relay path, by contrast, is properly gated by the config. -/
theorem C9_tunnel_dump_always_captures_body :
    defaultConfig.logRequestBody = false ∧
    (∀ (env : TunnelEnv) (w0 : ResponseWriter),
      (handleTunnel env w0).dumpBodyFlags = [true]) ∧
    (∀ (env : RelayEnv) (w0 : ResponseWriter),
      (handleHTTP env w0).reqDumpBodyFlags.all
        (fun b => b = env.conf.logRequestBody) = true) := by
  refine ⟨rfl, ?_, ?_⟩
  · rintro ⟨d, dl, hs, ho⟩ w0
    cases d <;> cases dl <;> cases hs <;> cases ho <;> rfl
  · rintro ⟨conf, dr, rt, d1, d2⟩ w0
    cases dr <;> cases rt <;> cases d1 <;> cases d2 <;>
      simp [handleHTTP]

/-- C10: `filterResponse` returns the shallow struct copy of its input:
same status code, same body stream, and the very same header-map reference,
into which the retained entries have been added — the post-call content of
the input response's own header map equals the returned response's header
map, namely the completed filter result. -/
theorem C10_filterResponse_keeps_frame_and_shares_header :
    ∀ (s : Store) (resp : ResponseRef),
      (filterResponseRef s resp).2.statusCode = resp.statusCode ∧
      (filterResponseRef s resp).2.body = resp.body ∧
      (filterResponseRef s resp).2.headerRef = resp.headerRef ∧
      storeGet (filterResponseRef s resp).1 resp.headerRef
        = filterHeader (storeGet s resp.headerRef) unwantedHeaders := by
  intro s resp
  refine ⟨rfl, rfl, rfl, ?_⟩
  show storeGet
      ((withoutHeaders (respEntries (storeGet s resp.headerRef)) unwantedHeaders).foldl
        (fun acc e => e.values.foldl
          (fun a v => addViaRef a resp.headerRef e.key v) acc) s) resp.headerRef
    = filterHeader (storeGet s resp.headerRef) unwantedHeaders
  rw [storeGet_foldEntries]
  rfl

end GoForwardHTTP
